import Mathlib

/-!
Shallow embedding of the conversational-AI orchestration core of the
SooshIT backend (files `app/services/ai_provider_service.py`,
`app/services/age_adaptive_ai.py`, `app/core/ai_config.py`), together
with theorems settling the specification claims about it.

Conventions of the embedding:
* Python `str` is Lean `String`, `bytes` is `List Nat`, `int` is `Int`
  or `Nat` as the calling context dictates.
* Python exceptions become `Except PyErr`; an async network call is an
  explicit oracle parameter `Request → Except PyErr Response`, so the
  code around the call is translated verbatim while the backend stays
  abstract.
* Python truthiness (`if system_prompt:`, `if filters.get(...)`) is
  translated explicitly: an `Option` is truthy when it is `some` of a
  truthy value; a string/list is truthy when non-empty; a number when
  non-zero.
-/

/-- Errors a stage can raise (Python exceptions, kept abstract but tagged
with the raising site, mirroring the `raise Exception(f"... error: ...")`
wrappers in the source). -/
inductive PyErr where
  | ollamaError (msg : String)
  | coquiError (msg : String)
  | openaiError (msg : String)
  | openaiTTSError (msg : String)
  | httpError (msg : String)
  | jsonDecodeError
  deriving Repr, DecidableEq

/-- OpenAI-style chat message, `{"role": ..., "content": ...}`
(`ConversationMessage` in the spec's data model). -/
structure Msg where
  role : String
  content : String
  deriving Repr, DecidableEq

/-! ## `app/core/ai_config.py` -/

/-- The fields of `AIProviderConfig` that the service layer reads
(pydantic `BaseSettings`; defaults from `app/core/ai_config.py`). -/
structure AIProviderConfig where
  OLLAMA_BASE_URL : String := "http://localhost:11434"
  OLLAMA_MODEL : String := "llama3.2:latest"
  COQUI_TTS_URL : String := "http://localhost:5002"
  COQUI_MODEL : String := "tts_models/en/ljspeech/tacotron2-DDC"
  COQUI_VOCODER : String := "vocoder_models/en/ljspeech/hifigan_v2"
  OPENAI_MODEL : String := "gpt-4-turbo-preview"
  OPENAI_TTS_MODEL : String := "tts-1"
  OPENAI_TTS_VOICE : String := "nova"
  WHISPER_API_URL : String := "https://cf4d52b914ef.ngrok-free.app/api/v1/whisper/transcribe"
  WHISPER_API_KEY : String := ""
  MAX_RESPONSE_LENGTH : Nat := 500
  deriving Repr, DecidableEq

/-! ## `app/services/age_adaptive_ai.py` — age groups -/

namespace AgeGroup

def KIDS : String := "kids"
def TEENS : String := "teens"
def YOUNG_ADULT : String := "young_adult"
def ADULT : String := "adult"
def MIDDLE_AGE : String := "middle_age"
def SENIOR : String := "senior"

end AgeGroup

/-- `get_age_group(age)`: determine age group from age
(`age_adaptive_ai.py`, lines 23–36). -/
def get_age_group (age : Int) : String :=
  if 5 ≤ age ∧ age ≤ 12 then AgeGroup.KIDS
  else if 13 ≤ age ∧ age ≤ 17 then AgeGroup.TEENS
  else if 18 ≤ age ∧ age ≤ 24 then AgeGroup.YOUNG_ADULT
  else if 25 ≤ age ∧ age ≤ 44 then AgeGroup.ADULT
  else if 45 ≤ age ∧ age ≤ 60 then AgeGroup.MIDDLE_AGE
  else AgeGroup.SENIOR

/-- The six ranges named by the spec: `[5,12],[13,17],[18,24],[25,44],
[45,60],[61,∞)`, indexed `0..5`. -/
def in_age_range (i : Fin 6) (a : Int) : Prop :=
  match i with
  | 0 => 5 ≤ a ∧ a ≤ 12
  | 1 => 13 ≤ a ∧ a ≤ 17
  | 2 => 18 ≤ a ∧ a ≤ 24
  | 3 => 25 ≤ a ∧ a ≤ 44
  | 4 => 45 ≤ a ∧ a ≤ 60
  | 5 => 61 ≤ a

instance (i : Fin 6) (a : Int) : Decidable (in_age_range i a) := by
  unfold in_age_range
  match i with
  | 0 | 1 | 2 | 3 | 4 | 5 => infer_instance

/-- The group each range maps to. -/
def group_of_range (i : Fin 6) : String :=
  match i with
  | 0 => AgeGroup.KIDS
  | 1 => AgeGroup.TEENS
  | 2 => AgeGroup.YOUNG_ADULT
  | 3 => AgeGroup.ADULT
  | 4 => AgeGroup.MIDDLE_AGE
  | 5 => AgeGroup.SENIOR

/-! ## `app/services/age_adaptive_ai.py` — content filter -/

/-- One entry of the `age_filters` table in `filter_opportunities_by_age`
(lines 319–335); `Option` marks keys that may be absent from an entry. -/
structure AgeFilter where
  difficulty : Option (List String)
  content_rating : Option (List String)
  max_duration : Option Nat
  deriving Repr, DecidableEq

/-- A content item as the filter reads it: `opp.get("difficulty")` and
`opp.get("duration_minutes", 0)`; other keys are never inspected. -/
structure Opportunity where
  difficulty : Option String
  duration_minutes : Option Nat
  deriving Repr, DecidableEq

/-- `age_filters.get(age_group, {"difficulty": ["all"]})`: the literal
table has entries only for kids, teens and young_adult (the source's
`# ... other groups` comment marks the rest as absent). -/
def age_filters_get (age_group : String) : AgeFilter :=
  if age_group = AgeGroup.KIDS then
    { difficulty := some ["beginner"],
      content_rating := some ["all_ages", "kids"],
      max_duration := some 30 }
  else if age_group = AgeGroup.TEENS then
    { difficulty := some ["beginner", "intermediate"],
      content_rating := some ["all_ages", "teen"],
      max_duration := some 60 }
  else if age_group = AgeGroup.YOUNG_ADULT then
    { difficulty := some ["all"],
      content_rating := some ["all"],
      max_duration := none }
  else
    { difficulty := some ["all"], content_rating := none, max_duration := none }

/-- Python membership `x in l` where `x` came from `opp.get(...)` and may
be `None` (which is not a member of a list of strings). -/
def opt_mem (x : Option String) (l : List String) : Bool :=
  match x with
  | some s => l.contains s
  | none => false

/-- The loop body of `filter_opportunities_by_age` (lines 341–351): an
item is kept unless one of the two `continue` guards fires.  Truthiness
of `filters.get("difficulty")` is non-emptiness of the list, of
`filters.get("max_duration")` non-zeroness of the number. -/
def opportunity_passes (filters : AgeFilter) (opp : Opportunity) : Bool :=
  if (match filters.difficulty with
      | some l => !l.isEmpty
      | none => false)
      && !(opt_mem opp.difficulty (filters.difficulty.getD [])) then
    false
  else if (match filters.max_duration with
      | some d => d ≠ 0
      | none => false)
      && decide (opp.duration_minutes.getD 0 > filters.max_duration.getD 0) then
    false
  else
    true

/-- `AgeAdaptiveAIService.filter_opportunities_by_age(opportunities,
age_group)` (lines 314–353): the for/continue/append loop keeps, in
order, exactly the items neither guard drops. -/
def filter_opportunities_by_age (opportunities : List Opportunity)
    (age_group : String) : List Opportunity :=
  opportunities.filter (opportunity_passes (age_filters_get age_group))

/-! ## `app/services/ai_provider_service.py` — local adapter -/

/-- Python `"sep".join(parts)`. -/
def py_join (sep : String) : List String → String
  | [] => ""
  | [p] => p
  | p :: rest => p ++ sep ++ py_join sep rest

/-- The loop of `LocalAIProvider._messages_to_prompt` (lines 138–150):
each message contributes one role-annotated part, any other role is
skipped, and one final `"Assistant:"` cue is appended. -/
def prompt_parts (messages : List Msg) : List String :=
  messages.filterMap (fun msg =>
    if msg.role = "system" then some ("System: " ++ msg.content ++ "\n")
    else if msg.role = "user" then some ("User: " ++ msg.content ++ "\n")
    else if msg.role = "assistant" then some ("Assistant: " ++ msg.content ++ "\n")
    else none)

/-- `LocalAIProvider._messages_to_prompt(messages)` (lines 135–151):
`"\n".join(prompt_parts + ["Assistant:"])`. -/
def messages_to_prompt (messages : List Msg) : String :=
  py_join "\n" (prompt_parts messages ++ ["Assistant:"])

/-- Outbound JSON payload of `LocalAIProvider.generate_text`
(`POST {ollama_url}/api/generate`, lines 77–86). -/
structure OllamaRequest where
  url : String
  model : String
  prompt : String
  temperature : ℚ
  max_tokens : Nat
  stream : Bool
  deriving Repr, DecidableEq

/-- Ollama response body; `result.get("response", "")` reads an optional
key. -/
structure OllamaResponse where
  response : Option String
  deriving Repr, DecidableEq

/-- The request `LocalAIProvider.generate_text` posts (lines 77–86). -/
def ollama_outbound (cfg : AIProviderConfig) (messages : List Msg)
    (temperature : ℚ) (max_tokens : Nat) : OllamaRequest :=
  { url := cfg.OLLAMA_BASE_URL ++ "/api/generate",
    model := cfg.OLLAMA_MODEL,
    prompt := messages_to_prompt messages,
    temperature := temperature,
    max_tokens := max_tokens,
    stream := false }

/-- `LocalAIProvider.generate_text` (lines 64–92): flatten the messages,
post to Ollama, return `result.get("response", "")`; an `httpx.HTTPError`
is re-raised as `Exception(f"Ollama API error: {str(e)}")`. -/
def local_generate_text (cfg : AIProviderConfig)
    (http : OllamaRequest → Except String OllamaResponse)
    (messages : List Msg) (temperature : ℚ) (max_tokens : Nat) :
    Except PyErr String :=
  match http (ollama_outbound cfg messages temperature max_tokens) with
  | .ok result => .ok (result.response.getD "")
  | .error e => .error (.ollamaError e)

/-- Outbound JSON payload of `LocalAIProvider.generate_speech`
(`POST {coqui_url}/api/tts`, lines 103–110). -/
structure CoquiRequest where
  url : String
  text : String
  model_name : String
  vocoder_name : String
  deriving Repr, DecidableEq

/-- `LocalAIProvider.generate_speech` (lines 94–115): post the text with
the configured model/vocoder, return the raw WAV bytes; an
`httpx.HTTPError` is re-raised as `Exception(f"Coqui TTS error: ...")`.
The `voice` argument is accepted but never used by this adapter. -/
def local_generate_speech (cfg : AIProviderConfig)
    (http : CoquiRequest → Except String (List Nat))
    (text : String) (voice : Option String) : Except PyErr (List Nat) :=
  match http { url := cfg.COQUI_TTS_URL ++ "/api/tts",
               text := text,
               model_name := cfg.COQUI_MODEL,
               vocoder_name := cfg.COQUI_VOCODER } with
  | .ok content => .ok content
  | .error e => .error (.coquiError e)

/-- Outbound multipart request of the two `transcribe_audio` methods:
`files = {"audio": ("audio.m4a", audio_file, "audio/m4a")}` posted to
`whisper_url`, bearer header present iff `WHISPER_API_KEY` is truthy. -/
structure WhisperRequest where
  url : String
  filename : String
  mime : String
  audio : List Nat
  auth_header : Option String
  deriving Repr, DecidableEq

/-- Whisper response body; `result.get("text", "")` reads an optional
key. -/
structure WhisperResponse where
  text : Option String
  deriving Repr, DecidableEq

/-- The multipart request `LocalAIProvider.transcribe_audio` posts to
the shared Whisper endpoint (lines 123–130). -/
def local_whisper_outbound (cfg : AIProviderConfig)
    (audio_file : List Nat) : WhisperRequest :=
  { url := cfg.WHISPER_API_URL,
    filename := "audio.m4a",
    mime := "audio/m4a",
    audio := audio_file,
    auth_header := if cfg.WHISPER_API_KEY ≠ "" then
        some ("Bearer " ++ cfg.WHISPER_API_KEY)
      else none }

/-- `LocalAIProvider.transcribe_audio` (lines 117–133): multipart upload
to the shared Whisper endpoint, returning `result.get("text", "")`;
there is no try/except here, an HTTP failure propagates raw. -/
def local_transcribe_audio (cfg : AIProviderConfig)
    (http : WhisperRequest → Except String WhisperResponse)
    (audio_file : List Nat) : Except PyErr String :=
  match http (local_whisper_outbound cfg audio_file) with
  | .ok result => .ok (result.text.getD "")
  | .error e => .error (.httpError e)

/-! ## `app/services/ai_provider_service.py` — cloud adapter -/

/-- Outbound payload of `OpenAIProvider.generate_text`
(`client.chat.completions.create`, lines 174–179): the structured
message array is passed through unflattened. -/
structure ChatCompletionRequest where
  model : String
  messages : List Msg
  temperature : ℚ
  max_tokens : Nat
  deriving Repr, DecidableEq

/-- The request `OpenAIProvider.generate_text` sends (lines 174–179). -/
def openai_chat_outbound (cfg : AIProviderConfig) (messages : List Msg)
    (temperature : ℚ) (max_tokens : Nat) : ChatCompletionRequest :=
  { model := cfg.OPENAI_MODEL,
    messages := messages,
    temperature := temperature,
    max_tokens := max_tokens }

/-- `OpenAIProvider.generate_text` (lines 165–183): the oracle yields
`response.choices[0].message.content`; any exception is re-raised as
`Exception(f"OpenAI API error: {str(e)}")`. -/
def openai_generate_text (cfg : AIProviderConfig)
    (api : ChatCompletionRequest → Except String String)
    (messages : List Msg) (temperature : ℚ) (max_tokens : Nat) :
    Except PyErr String :=
  match api (openai_chat_outbound cfg messages temperature max_tokens) with
  | .ok content => .ok content
  | .error e => .error (.openaiError e)

/-- Python `a or b` on an optional string: `None` and `""` are falsy. -/
def py_str_or (a : Option String) (b : String) : String :=
  match a with
  | some v => if v = "" then b else v
  | none => b

/-- Outbound payload of `OpenAIProvider.generate_speech`
(`client.audio.speech.create`, lines 193–197). -/
structure OpenAISpeechRequest where
  model : String
  voice : String
  input : String
  deriving Repr, DecidableEq

/-- `OpenAIProvider.generate_speech` (lines 185–201): voice defaults to
the configured voice via Python `or`; any exception is re-raised as
`Exception(f"OpenAI TTS error: {str(e)}")`. -/
def openai_generate_speech (cfg : AIProviderConfig)
    (api : OpenAISpeechRequest → Except String (List Nat))
    (text : String) (voice : Option String) : Except PyErr (List Nat) :=
  match api { model := cfg.OPENAI_TTS_MODEL,
              voice := py_str_or voice cfg.OPENAI_TTS_VOICE,
              input := text } with
  | .ok content => .ok content
  | .error e => .error (.openaiTTSError e)

/-- The multipart request `OpenAIProvider.transcribe_audio` posts
(lines 209–216): same shared Whisper endpoint as the local adapter. -/
def openai_whisper_outbound (cfg : AIProviderConfig)
    (audio_file : List Nat) : WhisperRequest :=
  { url := cfg.WHISPER_API_URL,
    filename := "audio.m4a",
    mime := "audio/m4a",
    audio := audio_file,
    auth_header := if cfg.WHISPER_API_KEY ≠ "" then
        some ("Bearer " ++ cfg.WHISPER_API_KEY)
      else none }

/-- Response handling of `OpenAIProvider.transcribe_audio` (lines
209–219): post the multipart request, return `result.get("text", "")`,
no try/except. -/
def openai_transcribe_audio (cfg : AIProviderConfig)
    (http : WhisperRequest → Except String WhisperResponse)
    (audio_file : List Nat) : Except PyErr String :=
  match http (openai_whisper_outbound cfg audio_file) with
  | .ok result => .ok (result.text.getD "")
  | .error e => .error (.httpError e)

/-! ## `app/services/ai_provider_service.py` — unified service -/

/-- The capability record a `UnifiedAIService` instance holds
(`self.provider`, one of the two adapter classes above; the service
layer only ever calls these three methods). -/
structure ProviderImpl where
  generate_text : List Msg → ℚ → Nat → Except PyErr String
  generate_speech : String → Option String → Except PyErr (List Nat)
  transcribe_audio : List Nat → Except PyErr String

/-- Default `temperature: float = 0.7` of `chat` and
`voice_conversation`'s inner `chat` call. -/
def default_temperature : ℚ := 7 / 10

/-- The message list `UnifiedAIService.chat` builds (lines 272–283):
start empty, `if system_prompt:` append a system message (Python
truthiness: `None` and `""` both skip), `if conversation_history:`
extend (extending by `[]` is a no-op, so plain append is faithful),
then append the user message.  `history = []` models the `None`
default. -/
def chat_messages (user_message : String) (conversation_history : List Msg)
    (system_prompt : Option String) : List Msg :=
  (match system_prompt with
   | some s => if s = "" then [] else [{ role := "system", content := s }]
   | none => []) ++
  conversation_history ++ [{ role := "user", content := user_message }]

/-- `UnifiedAIService.chat` (lines 253–292): build the message sequence
and delegate to the active adapter's text generation with
`max_tokens = ai_config.MAX_RESPONSE_LENGTH`. -/
def chat (cfg : AIProviderConfig) (provider : ProviderImpl)
    (user_message : String) (conversation_history : List Msg)
    (system_prompt : Option String) (temperature : ℚ) :
    Except PyErr String :=
  provider.generate_text (chat_messages user_message conversation_history system_prompt)
    temperature cfg.MAX_RESPONSE_LENGTH

/-- `UnifiedAIService.text_to_speech` (lines 294–309): a bare
delegation to `self.provider.generate_speech(text, voice)`. -/
def text_to_speech (provider : ProviderImpl)
    (text : String) (voice : Option String) : Except PyErr (List Nat) :=
  provider.generate_speech text voice

/-- `UnifiedAIService.speech_to_text` (lines 311–324): a bare delegation
to `self.provider.transcribe_audio(audio_bytes)`. -/
def speech_to_text (provider : ProviderImpl)
    (audio_bytes : List Nat) : Except PyErr String :=
  provider.transcribe_audio audio_bytes

/-- One adapter invocation made by the service layer, recorded with the
arguments the adapter received (the instrumentation the spec's stage
counting is stated over). -/
inductive CallEvent where
  | transcribe (audio : List Nat)
  | generate (messages : List Msg) (temperature : ℚ) (max_tokens : Nat)
  | synthesize (text : String) (voice : Option String)
  deriving Repr, DecidableEq

/-- The dict `voice_conversation` returns (lines 362–371): `ai_audio`
is present iff `return_audio` was set and synthesis ran. -/
structure VoiceResult where
  user_text : String
  ai_text : String
  ai_audio : Option (List Nat)
  deriving Repr, DecidableEq

/-- `UnifiedAIService.voice_conversation` (lines 326–372), instrumented:
alongside the Python return value (or the propagated exception) it
yields the ordered list of adapter invocations.  Stage 1
`speech_to_text`, stage 2 `chat` at the default temperature, stage 3
`text_to_speech(ai_text)` only when `return_audio`; a raise at any
stage aborts the rest, exactly as sequential `await`s do. -/
def voice_conversation (cfg : AIProviderConfig) (provider : ProviderImpl)
    (audio_bytes : List Nat) (conversation_history : List Msg)
    (system_prompt : Option String) (return_audio : Bool) :
    Except PyErr VoiceResult × List CallEvent :=
  match speech_to_text provider audio_bytes with
  | .error e => (.error e, [.transcribe audio_bytes])
  | .ok user_text =>
    let messages := chat_messages user_text conversation_history system_prompt
    let events₂ : List CallEvent :=
      [.transcribe audio_bytes,
       .generate messages default_temperature cfg.MAX_RESPONSE_LENGTH]
    match chat cfg provider user_text conversation_history system_prompt
        default_temperature with
    | .error e => (.error e, events₂)
    | .ok ai_text =>
      if return_audio then
        match text_to_speech provider ai_text none with
        | .error e => (.error e, events₂ ++ [.synthesize ai_text none])
        | .ok ai_audio =>
          (.ok { user_text := user_text, ai_text := ai_text,
                 ai_audio := some ai_audio },
           events₂ ++ [.synthesize ai_text none])
      else
        (.ok { user_text := user_text, ai_text := ai_text, ai_audio := none },
         events₂)

/-! ## Model of the Python stdlib `json.loads`

`age_adaptive_ai.py` calls `json.loads` directly on the model's reply
(line 310) with no surrounding try/except.  The parser below embeds the
JSON grammar fragment this development evaluates (objects, arrays,
strings with the common escapes, decimal numbers, literals); `none`
models `json.loads` raising `json.JSONDecodeError`. -/

/-- JSON values as `json.loads` produces them (dicts keep insertion
order, so an association list is faithful). -/
inductive Json where
  | null
  | bool (b : Bool)
  | num (q : ℚ)
  | str (s : String)
  | arr (elems : List Json)
  | obj (fields : List (String × Json))
  deriving Repr

/-- Drop leading JSON whitespace. -/
def skip_ws : List Char → List Char
  | c :: cs =>
    if c = ' ' ∨ c = '\n' ∨ c = '\t' ∨ c = '\r' then skip_ws cs else c :: cs
  | [] => []

/-- Match an expected literal tail (e.g. `"ull"` after `n`). -/
def strip_lit : List Char → List Char → Option (List Char)
  | [], cs => some cs
  | _ :: _, [] => none
  | l :: ls, c :: cs => if c = l then strip_lit ls cs else none

/-- Body of a JSON string up to the closing quote, decoding the common
escapes. -/
def parse_string_body : List Char → Option (List Char × List Char)
  | [] => none
  | '"' :: cs => some ([], cs)
  | '\\' :: c :: cs =>
    (if c = '"' then some '"'
     else if c = '\\' then some '\\'
     else if c = '/' then some '/'
     else if c = 'n' then some '\n'
     else if c = 't' then some '\t'
     else if c = 'r' then some '\r'
     else none).bind fun e =>
      (parse_string_body cs).map fun r => (e :: r.1, r.2)
  | '\\' :: [] => none
  | c :: cs => (parse_string_body cs).map fun r => (c :: r.1, r.2)

/-- Leading decimal digits and the remainder. -/
def parse_digits : List Char → List Char × List Char
  | c :: cs =>
    if c.isDigit then
      let r := parse_digits cs
      (c :: r.1, r.2)
    else ([], c :: cs)
  | [] => ([], [])

/-- Value of a digit string. -/
def digits_val (ds : List Char) : Nat :=
  ds.foldl (fun acc c => 10 * acc + (c.toNat - 48)) 0

/-- A JSON number: optional minus, integer digits, optional fraction
(exponents are outside the modelled fragment). -/
def parse_number (cs : List Char) : Option (ℚ × List Char) :=
  let (neg, cs₁) := match cs with
    | '-' :: rest => (true, rest)
    | _ => (false, cs)
  match parse_digits cs₁ with
  | ([], _) => none
  | (ds, rest) =>
    let intPart : ℚ := (digits_val ds : ℚ)
    let (val, rest₂) : ℚ × List Char := match rest with
      | '.' :: rest' =>
        match parse_digits rest' with
        | ([], _) => (intPart, rest)
        | (fs, rest'') =>
          (intPart + (digits_val fs : ℚ) / ((10 : ℚ) ^ fs.length), rest'')
      | _ => (intPart, rest)
    some (if neg then -val else val, rest₂)

mutual

/-- One JSON value starting at the head of the input (after optional
whitespace), returning the value and the unconsumed remainder. -/
def parse_value : Nat → List Char → Option (Json × List Char)
  | 0, _ => none
  | Nat.succ fuel, cs =>
    match skip_ws cs with
    | [] => none
    | c :: cs' =>
      if c = 'n' then
        (strip_lit ['u', 'l', 'l'] cs').map fun rest => (Json.null, rest)
      else if c = 't' then
        (strip_lit ['r', 'u', 'e'] cs').map fun rest => (Json.bool true, rest)
      else if c = 'f' then
        (strip_lit ['a', 'l', 's', 'e'] cs').map fun rest => (Json.bool false, rest)
      else if c = '"' then
        (parse_string_body cs').map fun r => (Json.str (String.mk r.1), r.2)
      else if c = '[' then
        match skip_ws cs' with
        | ']' :: rest => some (Json.arr [], rest)
        | _ => (parse_elems fuel cs').map fun r => (Json.arr r.1, r.2)
      else if c = '\x7b' then
        match skip_ws cs' with
        | '\x7d' :: rest => some (Json.obj [], rest)
        | _ => (parse_fields fuel cs').map fun r => (Json.obj r.1, r.2)
      else if c = '-' ∨ c.isDigit then
        (parse_number (c :: cs')).map fun r => (Json.num r.1, r.2)
      else none

/-- Comma-separated array elements up to the closing bracket. -/
def parse_elems : Nat → List Char → Option (List Json × List Char)
  | 0, _ => none
  | Nat.succ fuel, cs =>
    (parse_value fuel cs).bind fun r =>
      match skip_ws r.2 with
      | ']' :: rest => some ([r.1], rest)
      | ',' :: rest =>
        (parse_elems fuel rest).map fun r' => (r.1 :: r'.1, r'.2)
      | _ => none

/-- Comma-separated `"key": value` fields up to the closing brace. -/
def parse_fields : Nat → List Char → Option (List (String × Json) × List Char)
  | 0, _ => none
  | Nat.succ fuel, cs =>
    match skip_ws cs with
    | '"' :: cs' =>
      (parse_string_body cs').bind fun k =>
        match skip_ws k.2 with
        | ':' :: rest =>
          (parse_value fuel rest).bind fun v =>
            match skip_ws v.2 with
            | '\x7d' :: rest' => some ([(String.mk k.1, v.1)], rest')
            | ',' :: rest' =>
              (parse_fields fuel rest').map fun r => ((String.mk k.1, v.1) :: r.1, r.2)
            | _ => none
        | _ => none
    | _ => none

end

/-- `json.loads(s)`: parse one value, require only whitespace after it;
`none` is a raised `json.JSONDecodeError`. -/
def json_loads (s : String) : Option Json :=
  match parse_value (s.length + 1) s.data with
  | some (v, rest) => if skip_ws rest = [] then some v else none
  | none => none

/-! ## `app/services/age_adaptive_ai.py` — structured profile extraction -/

/-- The f-string `extraction_prompt` of
`AgeAdaptiveAIService.extract_profile_data` (lines 272–297); literal
braces are written `\x7b`/`\x7d`. -/
def extraction_prompt (age_group : String) : String :=
  "\nAnalyze this onboarding conversation with a " ++ age_group ++
  " user and extract:\n\n" ++
  "1. Interests/Passions (as array of strings)\n" ++
  "2. Skills (as array of \x7bskill: string, level: string\x7d)\n" ++
  "3. Goals (as single string)\n" ++
  "4. Time commitment (as string)\n" ++
  "5. Learning style (as string: visual, hands-on, theoretical, mentorship)\n" ++
  "6. Motivation (why they\x27re here)\n\n" ++
  "For kids/teens: Simplify and focus on fun interests\n" ++
  "For adults: Focus on career and ROI\n" ++
  "For seniors: Focus on enjoyment and community\n\n" ++
  "Return ONLY a JSON object, no other text.\n\n" ++
  "Example output:\n" ++
  "\x7b\n" ++
  "  \"passions\": [\"Art\", \"Design\"],\n" ++
  "  \"skills\": [\x7b\"skill\": \"Drawing\", \"level\": \"beginner\"\x7d],\n" ++
  "  \"goals\": \"Learn digital art\",\n" ++
  "  \"time_commitment\": \"30 minutes/day\",\n" ++
  "  \"learning_style\": \"visual\",\n" ++
  "  \"motivation\": \"creative expression\"\n" ++
  "\x7d\n"

/-- The completion request `extract_profile_data` issues (lines
299–308): history with the extraction prompt appended as a trailing
system message, `response_format={"type": "json_object"}`,
`temperature=0.3`. -/
structure ExtractionRequest where
  model : String
  messages : List Msg
  response_format_json : Bool
  temperature : ℚ
  deriving Repr

/-- The request `extract_profile_data` sends for a given age group and
history. -/
def extraction_outbound (model : String) (age_group : String)
    (conversation_history : List Msg) : ExtractionRequest :=
  { model := model,
    messages := conversation_history ++
      [{ role := "system", content := extraction_prompt age_group }],
    response_format_json := true,
    temperature := 3 / 10 }

/-- `AgeAdaptiveAIService.extract_profile_data` (lines 267–312): issue
the extraction request, then `json.loads` the reply.  There is no
try/except anywhere in the method: an API failure propagates unchanged
and a `json.JSONDecodeError` from line 310 propagates as well. -/
def extract_profile_data (model : String)
    (api : ExtractionRequest → Except PyErr String)
    (age_group : String) (conversation_history : List Msg) :
    Except PyErr Json :=
  match api (extraction_outbound model age_group conversation_history) with
  | .error e => .error e
  | .ok content =>
    match json_loads content with
    | some profile_data => .ok profile_data
    | none => .error .jsonDecodeError

/-! ## Adapter instances and concrete fixtures

`get_ai_provider()` (lines 226–236) returns `LocalAIProvider()` or
`OpenAIProvider()`; the two constructors below package the adapter
methods, with each network dependency explicit. -/

/-- A `LocalAIProvider` instance over its three backends. -/
def local_provider (cfg : AIProviderConfig)
    (ollama_http : OllamaRequest → Except String OllamaResponse)
    (coqui_http : CoquiRequest → Except String (List Nat))
    (whisper_http : WhisperRequest → Except String WhisperResponse) :
    ProviderImpl :=
  { generate_text := local_generate_text cfg ollama_http,
    generate_speech := local_generate_speech cfg coqui_http,
    transcribe_audio := local_transcribe_audio cfg whisper_http }

/-- An `OpenAIProvider` instance over its three backends. -/
def openai_provider (cfg : AIProviderConfig)
    (chat_api : ChatCompletionRequest → Except String String)
    (speech_api : OpenAISpeechRequest → Except String (List Nat))
    (whisper_http : WhisperRequest → Except String WhisperResponse) :
    ProviderImpl :=
  { generate_text := openai_generate_text cfg chat_api,
    generate_speech := openai_generate_speech cfg speech_api,
    transcribe_audio := openai_transcribe_audio cfg whisper_http }

/-- Backend stub that is never reached in the runs that use it. -/
def unreachable_ollama : OllamaRequest → Except String OllamaResponse :=
  fun _ => .error "unused"

/-- Backend stub that is never reached in the runs that use it. -/
def unreachable_whisper : WhisperRequest → Except String WhisperResponse :=
  fun _ => .error "unused"

/-- Coqui stub that reports which text it was asked to synthesize:
audio `[7]` for the empty string, an error otherwise. -/
def coqui_probe : CoquiRequest → Except String (List Nat) :=
  fun req => if req.text = "" then .ok [7] else .error "nonempty"

/-- Provider whose transcription stage yields the empty string (silent
audio) and whose other stages succeed. -/
def silent_audio_provider : ProviderImpl :=
  { generate_text := fun _ _ _ => .ok "Hello there!",
    generate_speech := fun _ _ => .ok [0, 1],
    transcribe_audio := fun _ => .ok "" }

/-- Provider whose generation stage always raises while the other
stages succeed. -/
def failing_generation_provider : ProviderImpl :=
  { generate_text := fun _ _ _ => .error (.openaiError "boom"),
    generate_speech := fun _ _ => .ok [0, 1],
    transcribe_audio := fun _ => .ok "hi" }

/-- Extraction backend replying with text that is not JSON. -/
def malformed_reply_api : ExtractionRequest → Except PyErr String :=
  fun _ => .ok "hello"

/-- Whether an event is a transcription-stage invocation. -/
def is_transcribe_event : CallEvent → Bool
  | .transcribe _ => true
  | _ => false

/-- Whether an event is a generation-stage invocation. -/
def is_generate_event : CallEvent → Bool
  | .generate _ _ _ => true
  | _ => false

/-- Whether an event is a synthesis-stage invocation. -/
def is_synthesize_event : CallEvent → Bool
  | .synthesize _ _ => true
  | _ => false

/-! ## Theorems -/

lemma get_age_group_kids (a : Int) (h1 : 5 ≤ a) (h2 : a ≤ 12) :
    get_age_group a = AgeGroup.KIDS := by
  unfold get_age_group
  rw [if_pos ⟨h1, h2⟩]

lemma get_age_group_teens (a : Int) (h1 : 13 ≤ a) (h2 : a ≤ 17) :
    get_age_group a = AgeGroup.TEENS := by
  unfold get_age_group
  rw [if_neg (by omega), if_pos ⟨h1, h2⟩]

lemma get_age_group_young_adult (a : Int) (h1 : 18 ≤ a) (h2 : a ≤ 24) :
    get_age_group a = AgeGroup.YOUNG_ADULT := by
  unfold get_age_group
  rw [if_neg (by omega), if_neg (by omega), if_pos ⟨h1, h2⟩]

lemma get_age_group_adult (a : Int) (h1 : 25 ≤ a) (h2 : a ≤ 44) :
    get_age_group a = AgeGroup.ADULT := by
  unfold get_age_group
  rw [if_neg (by omega), if_neg (by omega), if_neg (by omega), if_pos ⟨h1, h2⟩]

lemma get_age_group_middle_age (a : Int) (h1 : 45 ≤ a) (h2 : a ≤ 60) :
    get_age_group a = AgeGroup.MIDDLE_AGE := by
  unfold get_age_group
  rw [if_neg (by omega), if_neg (by omega), if_neg (by omega), if_neg (by omega),
    if_pos ⟨h1, h2⟩]

lemma get_age_group_senior (a : Int) (h1 : 61 ≤ a) :
    get_age_group a = AgeGroup.SENIOR := by
  unfold get_age_group
  rw [if_neg (by omega), if_neg (by omega), if_neg (by omega), if_neg (by omega),
    if_neg (by omega)]

lemma get_age_group_under_five (a : Int) (h : a < 5) :
    get_age_group a = AgeGroup.SENIOR := by
  unfold get_age_group
  rw [if_neg (by omega), if_neg (by omega), if_neg (by omega), if_neg (by omega),
    if_neg (by omega)]

/-- `get_age_group` respects the spec's ranges. -/
lemma get_age_group_of_range (a : Int) (i : Fin 6) (hi : in_age_range i a) :
    get_age_group a = group_of_range i := by
  fin_cases i
  · exact get_age_group_kids a hi.1 hi.2
  · exact get_age_group_teens a hi.1 hi.2
  · exact get_age_group_young_adult a hi.1 hi.2
  · exact get_age_group_adult a hi.1 hi.2
  · exact get_age_group_middle_age a hi.1 hi.2
  · exact get_age_group_senior a hi

/-- No two of the spec's ranges overlap. -/
lemma age_ranges_disjoint (a : Int) (i j : Fin 6)
    (hi : in_age_range i a) (hj : in_age_range j a) : i = j := by
  fin_cases i <;> fin_cases j <;>
    first
      | rfl
      | (exfalso
         simp only [in_age_range] at hi hj
         omega)

/-- Every age ≥ 5 lies in one of the spec's ranges. -/
lemma age_ranges_cover (a : Int) (h5 : 5 ≤ a) : ∃ i : Fin 6, in_age_range i a := by
  by_cases h12 : a ≤ 12
  · exact ⟨⟨0, by omega⟩, show 5 ≤ a ∧ a ≤ 12 from ⟨h5, h12⟩⟩
  by_cases h17 : a ≤ 17
  · exact ⟨⟨1, by omega⟩, show 13 ≤ a ∧ a ≤ 17 from ⟨by omega, h17⟩⟩
  by_cases h24 : a ≤ 24
  · exact ⟨⟨2, by omega⟩, show 18 ≤ a ∧ a ≤ 24 from ⟨by omega, h24⟩⟩
  by_cases h44 : a ≤ 44
  · exact ⟨⟨3, by omega⟩, show 25 ≤ a ∧ a ≤ 44 from ⟨by omega, h44⟩⟩
  by_cases h60 : a ≤ 60
  · exact ⟨⟨4, by omega⟩, show 45 ≤ a ∧ a ≤ 60 from ⟨by omega, h60⟩⟩
  · exact ⟨⟨5, by omega⟩, show 61 ≤ a by omega⟩

/-- **C3.** For every integer age, `get_age_group` returns exactly one
group; ages in the same defined range get the same group; the ranges
`[5,12],[13,17],[18,24],[25,44],[45,60],[61,∞)` partition all ages ≥ 5
with no gaps or overlaps, each mapped to its group; and every age < 5
falls through every range test to the explicit `else` fallback group
(`senior`). -/
theorem get_age_group_partition_spec (a : Int) :
    (5 ≤ a → ∃! i : Fin 6, in_age_range i a) ∧
    (∀ i : Fin 6, in_age_range i a → get_age_group a = group_of_range i) ∧
    (∀ a₂ : Int, ∀ i : Fin 6, in_age_range i a → in_age_range i a₂ →
      get_age_group a = get_age_group a₂) ∧
    (a < 5 → get_age_group a = AgeGroup.SENIOR) := by
  refine ⟨?_, fun i hi => get_age_group_of_range a i hi, ?_, get_age_group_under_five a⟩
  · intro h5
    obtain ⟨i, hi⟩ := age_ranges_cover a h5
    exact ⟨i, hi, fun j hj => age_ranges_disjoint a j i hj hi⟩
  · intro a₂ i hi hi₂
    rw [get_age_group_of_range a i hi, get_age_group_of_range a₂ i hi₂]

/-- Witness for C3 at concrete ages: 7 is in the kids range and maps to
kids; 3 is below every range and maps to the fallback. -/
theorem get_age_group_partition_spec_witness :
    get_age_group 7 = AgeGroup.KIDS ∧ get_age_group 3 = AgeGroup.SENIOR :=
  ⟨(get_age_group_partition_spec 7).2.1 ⟨0, by omega⟩ (by constructor <;> omega),
   (get_age_group_partition_spec 3).2.2.2 (by omega)⟩

/-- **C9.** The age-based content filter is idempotent: filtering an
already-filtered sequence with the same age group returns it
unchanged. -/
theorem filter_by_age_idempotent (opportunities : List Opportunity)
    (age_group : String) :
    filter_opportunities_by_age
        (filter_opportunities_by_age opportunities age_group) age_group =
      filter_opportunities_by_age opportunities age_group := by
  unfold filter_opportunities_by_age
  simp [List.filter_filter]

/-- **C10.** For `young_adult` and for every age group without an entry
in the filter table (which all fall back to `{difficulty: ["all"]}`),
an item survives the filter iff its difficulty field is the literal
string `"all"`: the `["all"]` whitelist is ordinary membership, not a
wildcard. -/
theorem filter_all_whitelist_is_membership (age_group : String)
    (opportunities : List Opportunity) (opp : Opportunity)
    (hk : age_group ≠ AgeGroup.KIDS) (ht : age_group ≠ AgeGroup.TEENS) :
    opp ∈ filter_opportunities_by_age opportunities age_group ↔
      opp ∈ opportunities ∧ opp.difficulty = some "all" := by
  unfold filter_opportunities_by_age
  have hpass : opportunity_passes (age_filters_get age_group) opp =
      (opp.difficulty = some "all" : Bool) := by
    unfold age_filters_get
    rw [if_neg hk, if_neg ht]
    by_cases hy : age_group = AgeGroup.YOUNG_ADULT
    · rw [if_pos hy]
      cases hd : opp.difficulty <;> simp [opportunity_passes, opt_mem, hd]
    · rw [if_neg hy]
      cases hd : opp.difficulty <;> simp [opportunity_passes, opt_mem, hd]
  rw [List.mem_filter, hpass]
  simp

/-- Witness for C10 at the `adult` group (no table entry): an item with
difficulty `"all"` survives, as the membership characterization
demands. -/
theorem filter_all_whitelist_is_membership_witness :
    (AgeGroup.ADULT ≠ AgeGroup.KIDS) ∧ (AgeGroup.ADULT ≠ AgeGroup.TEENS) ∧
    (({ difficulty := some "all", duration_minutes := some 90 } : Opportunity) ∈
        filter_opportunities_by_age
          [{ difficulty := some "all", duration_minutes := some 90 }]
          AgeGroup.ADULT ↔
      ({ difficulty := some "all", duration_minutes := some 90 } : Opportunity) ∈
          [({ difficulty := some "all", duration_minutes := some 90 } : Opportunity)] ∧
        (some "all" : Option String) = some "all") :=
  ⟨by decide, by decide,
   filter_all_whitelist_is_membership AgeGroup.ADULT
     [{ difficulty := some "all", duration_minutes := some 90 }]
     { difficulty := some "all", duration_minutes := some 90 }
     (by decide) (by decide)⟩

/-- `"sep".join(l + [x])` always ends in `x`. -/
lemma py_join_ends_with (sep : String) (l : List String) (x : String) :
    ∃ pre, py_join sep (l ++ [x]) = pre ++ x := by
  induction l with
  | nil => exact ⟨"", rfl⟩
  | cons p rest ih =>
    obtain ⟨pre, hpre⟩ := ih
    cases rest with
    | nil => exact ⟨p ++ sep, rfl⟩
    | cons q t =>
      refine ⟨p ++ sep ++ pre, ?_⟩
      show p ++ sep ++ py_join sep ((q :: t) ++ [x]) = p ++ sep ++ pre ++ x
      rw [hpre, String.append_assoc (p ++ sep) pre x]

/-- **C6.** With the local adapter active, `chat`'s outbound payload
carries the message sequence flattened into the single role-annotated
prompt string `_messages_to_prompt` produces, which ends in the
trailing `"Assistant:"` cue; with the cloud adapter active, the same
call's outbound payload carries the structured message array itself,
unflattened and in order. -/
theorem chat_outbound_payload_shape (cfg : AIProviderConfig)
    (user_message : String) (conversation_history : List Msg)
    (system_prompt : Option String) (temperature : ℚ) (max_tokens : Nat) :
    (ollama_outbound cfg
        (chat_messages user_message conversation_history system_prompt)
        temperature max_tokens).prompt =
      messages_to_prompt
        (chat_messages user_message conversation_history system_prompt) ∧
    (∃ pre, (ollama_outbound cfg
        (chat_messages user_message conversation_history system_prompt)
        temperature max_tokens).prompt = pre ++ "Assistant:") ∧
    (openai_chat_outbound cfg
        (chat_messages user_message conversation_history system_prompt)
        temperature max_tokens).messages =
      chat_messages user_message conversation_history system_prompt := by
  refine ⟨rfl, ?_, rfl⟩
  exact py_join_ends_with "\n"
    (prompt_parts (chat_messages user_message conversation_history system_prompt))
    "Assistant:"

/-- **C7 (counterexample).** With user message `"hi"`, empty history and
the system prompt given as the empty string, the claim predicts the
sequence `[system message, user message]`; `chat` builds `[user
message]` only, because `if system_prompt:` is false for `""`. -/
theorem chat_empty_system_prompt_counterexample :
    chat_messages "hi" [] (some "") = [{ role := "user", content := "hi" }] ∧
    chat_messages "hi" [] (some "") ≠
      [{ role := "system", content := "" }, { role := "user", content := "hi" }] :=
  ⟨rfl, by decide⟩

/-- **C7 (amended).** For every user message, history, and optional
system prompt that is not the empty string, `chat` passes the active
adapter's text generation exactly `[system message if a system prompt
is given] ++ history ++ [user message]`, history order preserved, with
the process-wide `MAX_RESPONSE_LENGTH` ceiling as `max_tokens`.  (An
empty-string system prompt is Python-falsy and contributes no system
message.) -/
theorem chat_message_sequence (cfg : AIProviderConfig)
    (provider : ProviderImpl) (user_message : String)
    (conversation_history : List Msg) (system_prompt : Option String)
    (temperature : ℚ) (hs : system_prompt ≠ some "") :
    chat cfg provider user_message conversation_history system_prompt temperature =
      provider.generate_text
        ((system_prompt.elim [] fun s => [{ role := "system", content := s }]) ++
          conversation_history ++ [{ role := "user", content := user_message }])
        temperature cfg.MAX_RESPONSE_LENGTH := by
  unfold chat chat_messages
  cases system_prompt with
  | none => rfl
  | some s =>
    have hne : s ≠ "" := fun h => hs (by rw [h])
    simp [hne]

/-- Witness for C7 (amended) with a non-empty system prompt, one history
message and a concrete provider. -/
theorem chat_message_sequence_witness :
    ((some "Be kind." : Option String) ≠ some "") ∧
    chat {} silent_audio_provider "hi"
        [{ role := "assistant", content := "prev" }] (some "Be kind.")
        default_temperature =
      silent_audio_provider.generate_text
        ([{ role := "system", content := "Be kind." }] ++
          [{ role := "assistant", content := "prev" }] ++
          [{ role := "user", content := "hi" }])
        default_temperature ({} : AIProviderConfig).MAX_RESPONSE_LENGTH :=
  ⟨by decide,
   chat_message_sequence {} silent_audio_provider "hi"
     [{ role := "assistant", content := "prev" }] (some "Be kind.")
     default_temperature (by decide)⟩

/-- **C5 (counterexample).** `text_to_speech("")` does not fail at this
layer: with the local adapter over a synthesis backend that answers the
empty string with audio `[7]`, the call delegates and returns `.ok [7]`
— the empty text reaches the backend instead of raising. -/
theorem text_to_speech_empty_text_reaches_backend :
    text_to_speech (local_provider {} unreachable_ollama coqui_probe unreachable_whisper)
        "" none = .ok [7] := rfl

/-- **C5 (amended).** `text_to_speech` performs no emptiness check: for
every text (the empty string included) it delegates to the active
provider's speech synthesis and returns that result; through the local
adapter the exact text is forwarded in the Coqui payload. -/
theorem text_to_speech_delegates_unconditionally (provider : ProviderImpl)
    (text : String) (voice : Option String) :
    text_to_speech provider text voice = provider.generate_speech text voice ∧
    ∀ (cfg : AIProviderConfig)
      (ollama_http : OllamaRequest → Except String OllamaResponse)
      (coqui_http : CoquiRequest → Except String (List Nat))
      (whisper_http : WhisperRequest → Except String WhisperResponse),
      text_to_speech (local_provider cfg ollama_http coqui_http whisper_http)
          text voice =
        match coqui_http { url := cfg.COQUI_TTS_URL ++ "/api/tts",
                           text := text,
                           model_name := cfg.COQUI_MODEL,
                           vocoder_name := cfg.COQUI_VOCODER } with
        | .ok content => .ok content
        | .error e => .error (.coquiError e) :=
  ⟨rfl, fun _ _ _ _ => rfl⟩

/-- **C8.** The two adapters' transcription operations are the same
function: for every audio input they build identical multipart requests
to the one shared Whisper endpoint (`WHISPER_API_URL`) and handle the
response identically, so `speech_to_text` behaves the same whichever
provider kind is active. -/
theorem transcription_shared_across_providers (cfg : AIProviderConfig)
    (audio : List Nat)
    (whisper_http : WhisperRequest → Except String WhisperResponse) :
    local_whisper_outbound cfg audio = openai_whisper_outbound cfg audio ∧
    (local_whisper_outbound cfg audio).url = cfg.WHISPER_API_URL ∧
    local_transcribe_audio cfg whisper_http audio =
      openai_transcribe_audio cfg whisper_http audio ∧
    ∀ (ollama_http : OllamaRequest → Except String OllamaResponse)
      (coqui_http : CoquiRequest → Except String (List Nat))
      (chat_api : ChatCompletionRequest → Except String String)
      (speech_api : OpenAISpeechRequest → Except String (List Nat)),
      speech_to_text (local_provider cfg ollama_http coqui_http whisper_http) audio =
        speech_to_text (openai_provider cfg chat_api speech_api whisper_http) audio :=
  ⟨rfl, rfl, rfl, fun _ _ _ _ => rfl⟩

/-- **C1.** For every input, `voice_conversation` invokes transcription
exactly once and first; generation and synthesis are each invoked at
most once, and on a successful run the trace is exactly transcription,
then generation (on the messages built from the transcript), then
synthesis iff `return_audio`; with `return_audio = False` synthesis is
never invoked; and if the generation stage fails, its error propagates
as the whole result (no partial result) and synthesis is never
invoked. -/
theorem voice_conversation_stage_discipline (cfg : AIProviderConfig)
    (provider : ProviderImpl) (audio_bytes : List Nat)
    (conversation_history : List Msg) (system_prompt : Option String)
    (return_audio : Bool) :
    ((voice_conversation cfg provider audio_bytes conversation_history
        system_prompt return_audio).2.countP is_transcribe_event = 1) ∧
    ((voice_conversation cfg provider audio_bytes conversation_history
        system_prompt return_audio).2.countP is_generate_event ≤ 1) ∧
    ((voice_conversation cfg provider audio_bytes conversation_history
        system_prompt return_audio).2.countP is_synthesize_event ≤ 1) ∧
    ((voice_conversation cfg provider audio_bytes conversation_history
        system_prompt return_audio).2.head? = some (.transcribe audio_bytes)) ∧
    (∀ v, (voice_conversation cfg provider audio_bytes conversation_history
        system_prompt return_audio).1 = .ok v →
      (voice_conversation cfg provider audio_bytes conversation_history
        system_prompt return_audio).2 =
        .transcribe audio_bytes ::
        .generate (chat_messages v.user_text conversation_history system_prompt)
          default_temperature cfg.MAX_RESPONSE_LENGTH ::
        (if return_audio then [.synthesize v.ai_text none] else [])) ∧
    (return_audio = false →
      (voice_conversation cfg provider audio_bytes conversation_history
        system_prompt return_audio).2.countP is_synthesize_event = 0) ∧
    (∀ user_text e, provider.transcribe_audio audio_bytes = .ok user_text →
      provider.generate_text
          (chat_messages user_text conversation_history system_prompt)
          default_temperature cfg.MAX_RESPONSE_LENGTH = .error e →
      (voice_conversation cfg provider audio_bytes conversation_history
          system_prompt return_audio).1 = .error e ∧
      (voice_conversation cfg provider audio_bytes conversation_history
          system_prompt return_audio).2.countP is_synthesize_event = 0) := by
  unfold voice_conversation speech_to_text chat text_to_speech
  cases hst : provider.transcribe_audio audio_bytes with
  | error e =>
    simp [hst, List.countP_cons, List.countP_nil,
      is_transcribe_event, is_generate_event, is_synthesize_event]
  | ok user_text =>
    cases hgen : provider.generate_text
        (chat_messages user_text conversation_history system_prompt)
        default_temperature cfg.MAX_RESPONSE_LENGTH with
    | error e =>
      simp [hst, hgen, List.countP_cons, List.countP_nil,
        is_transcribe_event, is_generate_event, is_synthesize_event]
      intro u e' hu hge
      subst hu
      rw [hgen] at hge
      simpa using hge
    | ok ai_text =>
      cases return_audio with
      | false =>
        simp [hst, hgen, List.countP_cons, List.countP_nil,
          is_transcribe_event, is_generate_event, is_synthesize_event]
        intro u e hu
        rw [hu] at hgen
        simp_all
      | true =>
        cases htts : provider.generate_speech ai_text none with
        | error e =>
          simp [hst, hgen, htts, List.countP_cons, List.countP_nil,
            is_transcribe_event, is_generate_event, is_synthesize_event]
          intro u e' hu
          rw [hu] at hgen
          simp_all
        | ok ai_audio =>
          simp [hst, hgen, htts, List.countP_cons, List.countP_nil,
            is_transcribe_event, is_generate_event, is_synthesize_event]
          intro u e hu
          rw [hu] at hgen
          simp_all

/-- **C2.** If transcription returns the empty string,
`voice_conversation` still invokes the generation stage, on the message
sequence whose final user message is the empty string (no early-exit
guard), and any returned record carries `user_text = ""`. -/
theorem voice_conversation_empty_transcript_proceeds (cfg : AIProviderConfig)
    (provider : ProviderImpl) (audio_bytes : List Nat)
    (conversation_history : List Msg) (system_prompt : Option String)
    (return_audio : Bool)
    (hst : provider.transcribe_audio audio_bytes = .ok "") :
    CallEvent.generate (chat_messages "" conversation_history system_prompt)
        default_temperature cfg.MAX_RESPONSE_LENGTH ∈
      (voice_conversation cfg provider audio_bytes conversation_history
        system_prompt return_audio).2 ∧
    (chat_messages "" conversation_history system_prompt).getLast? =
      some { role := "user", content := "" } ∧
    (∀ v, (voice_conversation cfg provider audio_bytes conversation_history
        system_prompt return_audio).1 = .ok v → v.user_text = "") := by
  have h2 : (chat_messages "" conversation_history system_prompt).getLast? =
      some { role := "user", content := "" } := by
    unfold chat_messages
    rw [List.getLast?_concat]
  refine ⟨?_, h2, ?_⟩ <;>
  · cases hgen : provider.generate_text
        (chat_messages "" conversation_history system_prompt)
        default_temperature cfg.MAX_RESPONSE_LENGTH with
    | error e =>
      simp [voice_conversation, speech_to_text, chat, text_to_speech, hst, hgen]
    | ok ai_text =>
      cases return_audio with
      | false =>
        simp [voice_conversation, speech_to_text, chat, text_to_speech, hst, hgen]
      | true =>
        cases htts : provider.generate_speech ai_text none with
        | error e =>
          simp [voice_conversation, speech_to_text, chat, text_to_speech,
            hst, hgen, htts]
        | ok ai_audio =>
          simp [voice_conversation, speech_to_text, chat, text_to_speech,
            hst, hgen, htts]

/-- Witness for C2: a provider transcribing silence to `""` with the
default configuration; the pipeline still generates from the empty
user message. -/
theorem voice_conversation_empty_transcript_proceeds_witness :
    silent_audio_provider.transcribe_audio [1, 2] = .ok "" ∧
    (CallEvent.generate (chat_messages "" [] none) default_temperature
        ({} : AIProviderConfig).MAX_RESPONSE_LENGTH ∈
      (voice_conversation {} silent_audio_provider [1, 2] [] none true).2 ∧
    (chat_messages "" [] none).getLast? = some { role := "user", content := "" } ∧
    (∀ v, (voice_conversation {} silent_audio_provider [1, 2] [] none true).1 =
        .ok v → v.user_text = "")) :=
  ⟨rfl,
   voice_conversation_empty_transcript_proceeds {} silent_audio_provider
     [1, 2] [] none true rfl⟩

/-- **C4 (counterexample).** Extraction over a backend replying with the
non-JSON text `"hello"` raises: the result is the propagated JSON
decode error, not a default profile object. -/
theorem extract_profile_data_malformed_raises :
    extract_profile_data "gpt-4-turbo-preview" malformed_reply_api
        AgeGroup.KIDS [] = .error PyErr.jsonDecodeError := rfl

/-- **C4 (amended).** When the model output is not parseable JSON,
`extract_profile_data` raises: the `json.JSONDecodeError` from the bare
`json.loads` call propagates to the caller; no default profile object
is substituted (there is no try/except in the method). -/
theorem extract_profile_data_parse_error_propagates (model : String)
    (api : ExtractionRequest → Except PyErr String) (age_group : String)
    (conversation_history : List Msg) (content : String)
    (hc : api (extraction_outbound model age_group conversation_history) =
      .ok content)
    (hp : json_loads content = none) :
    extract_profile_data model api age_group conversation_history =
      .error PyErr.jsonDecodeError := by
  unfold extract_profile_data
  rw [hc]
  simp [hp]

/-- Witness for C4 (amended) at a concrete malformed reply. -/
theorem extract_profile_data_parse_error_propagates_witness :
    malformed_reply_api (extraction_outbound "gpt-4o" AgeGroup.TEENS []) =
      .ok "hello" ∧
    json_loads "hello" = none ∧
    extract_profile_data "gpt-4o" malformed_reply_api AgeGroup.TEENS [] =
      .error PyErr.jsonDecodeError :=
  ⟨rfl, rfl,
   extract_profile_data_parse_error_propagates "gpt-4o" malformed_reply_api
     AgeGroup.TEENS [] "hello" rfl rfl⟩
